import Mathlib

/-!
Verification of the trivia quiz data model (db/models.py) against its
natural-language specification.  The Python models are shallowly embedded:
each model class becomes a structure, the relevant database tables become
lists of rows inside a `DB` structure, and each method becomes a pure
function threading the database state explicitly.
-/

namespace Trivia

/-- A row of the `questions` table (class `Question` in models.py). -/
structure Question where
  question_id : Nat
  question : String
  questions_answered : Nat
  questions_correct : Nat
  category : Nat
  difficulty : Int
deriving DecidableEq, Repr

/-- A row of the `answers` table (class `Answer` in models.py). -/
structure Answer where
  answer_id : Nat
  question_id : Nat
  correct : Bool
  text : String
deriving DecidableEq, Repr

/-- A row of the `questionresults` table (class `QuestionResult`).
The `correct` column is stored as the integer 0 or 1, as in
`QuestionResult.create(game_id, question_id, user_id, answer_id, correct)`. -/
structure QuestionResult where
  game_id : Nat
  question_id : Nat
  user_id : Nat
  answer_id : Nat
  correct : Nat
deriving DecidableEq, Repr

/-- A row of the `scores` table (class `Score` in models.py). -/
structure Score where
  user_id : Nat
  category_id : Nat
  num_answered : Nat
  num_correct : Nat
deriving DecidableEq, Repr

/-- The in-memory state of a `Game` object.  The games table row is kept in
lockstep with the object by the Python code (each mutation issues the
matching SQL UPDATE), so the object state stands for both. -/
structure Game where
  id : Nat
  user_id : Nat
  question_ids : List Nat
  question_index : Nat
  time_started : Int
  time_completed : Int
  difficulty : Int
  category_id : Nat
  score : Nat
deriving DecidableEq, Repr

/-- The database tables the game workflow reads and writes. -/
structure DB where
  questions : List Question
  answers : List Answer
  questionResults : List QuestionResult
deriving DecidableEq, Repr

/-- Python `Question.find(question_id=qid)`: first row of the questions table
whose `question_id` column equals `qid`. -/
def Question.find (db : DB) (qid : Nat) : Option Question :=
  db.questions.find? (fun q => q.question_id == qid)

/-- Python `Answer.find(answer_id=aid)`: first row of the answers table whose
`answer_id` column equals `aid`. -/
def Answer.find (db : DB) (aid : Nat) : Option Answer :=
  db.answers.find? (fun a => a.answer_id == aid)

/-- Python `QuestionResult.create`: inserts a row into `questionresults` and
returns the object. -/
def QuestionResult.create (db : DB) (game_id question_id user_id answer_id correct : Nat) :
    QuestionResult × DB :=
  let r : QuestionResult := ⟨game_id, question_id, user_id, answer_id, correct⟩
  (r, { db with questionResults := db.questionResults ++ [r] })

/-- Python `Score.create(user_id, category_id)`: a fresh zeroed tally row. -/
def Score.create (user_id category_id : Nat) : Score :=
  ⟨user_id, category_id, 0, 0⟩

/-- Python `Score.update_score(correct_answer)`: bumps `num_correct` when the
answer was correct, always bumps `num_answered`, then writes both columns
back to the scores row (the object mirrors the row). -/
def Score.update_score (s : Score) (correct_answer : Bool) : Score :=
  let s := if correct_answer then { s with num_correct := s.num_correct + 1 } else s
  { s with num_answered := s.num_answered + 1 }

/-- Python `Game.__init__`: refuses an empty `question_ids` value by raising
`ValueError`, modelled as `Except.error`; otherwise builds the object. -/
def Game.init (game_id user_id : Nat) (question_ids : List Nat) (question_index : Nat)
    (time_started time_completed : Int) (difficulty : Int) (category_id score : Nat) :
    Except String Game :=
  if question_ids.isEmpty then
    .error "a game must have questions"
  else
    .ok ⟨game_id, user_id, question_ids, question_index,
         time_started, time_completed, difficulty, category_id, score⟩

/-- The list of question ids returned by
`SELECT question_id FROM questions WHERE category = ? AND difficulty = ?`
in table order. -/
def matching_question_ids (db : DB) (category_id : Nat) (difficulty : Int) : List Nat :=
  (db.questions.filter (fun q => q.category == category_id && q.difficulty == difficulty)).map
    (fun q => q.question_id)

/-- Python `Game.create(user_id, category_id, difficulty, n=5)`.  The call to
`random.shuffle` is modelled by an explicit `shuffle` function; theorems
assume only that it permutes its input.  `game_id` stands for the
autoincrement rowid and `curr_time` for `time.time()`.  A `ValueError`
escaping the constructor propagates as `Except.error`; the early
`return None` on an empty candidate list is `Except.ok none`. -/
def Game.create (db : DB) (shuffle : List Nat → List Nat) (game_id user_id category_id : Nat)
    (difficulty : Int) (curr_time : Int) (n : Nat) : Except String (Option Game) :=
  let question_ids := matching_question_ids db category_id difficulty
  if question_ids.isEmpty then
    .ok none
  else
    let question_ids := (shuffle question_ids).take n
    (Game.init game_id user_id question_ids 0 curr_time 0 difficulty category_id 0).map some

/-- Python `Game.create` with the default question count `n=5`. -/
def Game.create_default (db : DB) (shuffle : List Nat → List Nat)
    (game_id user_id category_id : Nat) (difficulty : Int) (curr_time : Int) :
    Except String (Option Game) :=
  Game.create db shuffle game_id user_id category_id difficulty curr_time 5

/-- Python `Game.submit_answer(question_id, answer_id)`: returns the 0/1
correctness flag together with the updated game object and database.
When the looked-up question and answer exist and the answer belongs to the
question, it bumps the game score on a correct answer, inserts one
questionresults row, and bumps the counters of every questions row whose
`question_id` matches (the SQL UPDATE has no LIMIT). -/
def Game.submit_answer (g : Game) (db : DB) (question_id answer_id : Nat) :
    Nat × Game × DB :=
  match Question.find db question_id, Answer.find db answer_id with
  | some question, some answer =>
    if question.question_id == answer.question_id then
      let correct : Nat := if answer.correct then 1 else 0
      let g' := if answer.correct then { g with score := g.score + 1 } else g
      let r : QuestionResult := ⟨g.id, question_id, g.user_id, answer_id, correct⟩
      let db' : DB :=
        { db with
          questionResults := db.questionResults ++ [r],
          questions := db.questions.map (fun q =>
            if q.question_id == question_id then
              { q with
                questions_answered := q.questions_answered + 1,
                questions_correct := q.questions_correct + correct }
            else q) }
      (correct, g', db')
    else
      (0, g, db)
  | _, _ => (0, g, db)

/-- Python `Game.is_end()`: the linear index has reached the question count. -/
def Game.is_end (g : Game) : Bool :=
  decide (g.question_index ≥ g.question_ids.length)

/-- Python `Game.game_nextquestion()`: bumps `question_index` (object and row)
and returns `self.score`. -/
def Game.game_nextquestion (g : Game) : Nat × Game :=
  let g' := { g with question_index := g.question_index + 1 }
  (g'.score, g')

/-- Iterates `k` successive calls to `game_nextquestion`, keeping only the game. -/
def Game.nextN (g : Game) : Nat → Game
  | 0 => g
  | k + 1 => Game.nextN (g.game_nextquestion).2 k

/-! Concrete fixtures used by witness and counterexample theorems. -/

/-- A concrete question in category 2 with difficulty 1. -/
def qFix : Question := ⟨1, "What is 2+2?", 0, 0, 2, 1⟩

/-- The correct answer to `qFix`. -/
def aFixCorrect : Answer := ⟨7, 1, true, "4"⟩

/-- A wrong answer to `qFix`. -/
def aFixWrong : Answer := ⟨8, 1, false, "5"⟩

/-- A database holding `qFix` and its two answers. -/
def dbFix : DB := ⟨[qFix], [aFixCorrect, aFixWrong], []⟩

/-- An empty database. -/
def dbEmpty : DB := ⟨[], [], []⟩

/-- A game over `dbFix` whose single question is `qFix`. -/
def gFix : Game := ⟨10, 3, [1], 0, 0, 0, 1, 2, 0⟩

/-- A game whose question list does not contain question 1. -/
def gOther : Game := ⟨11, 3, [5], 0, 0, 0, 1, 2, 0⟩

/-- The game produced by `Game.create_default` on `dbFix` with the identity
shuffle: only one question matches, so the game has one question. -/
def gCreated : Game := ⟨20, 3, [1], 0, 0, 0, 1, 2, 0⟩

/-! Helper lemmas shared by the claim theorems. -/

lemma nextN_question_index (g : Game) (k : Nat) :
    (Game.nextN g k).question_index = g.question_index + k := by
  induction k generalizing g with
  | zero => rfl
  | succ k ih =>
    show (Game.nextN (g.game_nextquestion).2 k).question_index = g.question_index + (k + 1)
    rw [ih]
    simp [Game.game_nextquestion]
    omega

lemma nextN_question_ids (g : Game) (k : Nat) :
    (Game.nextN g k).question_ids = g.question_ids := by
  induction k generalizing g with
  | zero => rfl
  | succ k ih =>
    show (Game.nextN (g.game_nextquestion).2 k).question_ids = g.question_ids
    rw [ih]
    rfl

/-- Claim C5: each call to `game_nextquestion` increments `question_index`
by exactly 1, returns the game score, and leaves every other component of
the game state unchanged. -/
theorem game_nextquestion_spec (g : Game) :
    (g.game_nextquestion).1 = g.score ∧
    (g.game_nextquestion).2.question_index = g.question_index + 1 ∧
    (g.game_nextquestion).2.question_ids = g.question_ids ∧
    (g.game_nextquestion).2.score = g.score ∧
    (g.game_nextquestion).2.user_id = g.user_id ∧
    (g.game_nextquestion).2.category_id = g.category_id ∧
    (g.game_nextquestion).2.difficulty = g.difficulty ∧
    (g.game_nextquestion).2.time_started = g.time_started ∧
    (g.game_nextquestion).2.time_completed = g.time_completed ∧
    (g.game_nextquestion).2.id = g.id :=
  ⟨rfl, rfl, rfl, rfl, rfl, rfl, rfl, rfl, rfl, rfl⟩

/-- Claim C8: `update_score` increments `num_answered` by exactly 1,
increments `num_correct` by 1 when the answer was correct and by 0
otherwise, and leaves `user_id` and `category_id` unchanged. -/
theorem update_score_spec (s : Score) (correct_answer : Bool) :
    (s.update_score correct_answer).num_answered = s.num_answered + 1 ∧
    (s.update_score correct_answer).num_correct
      = s.num_correct + (if correct_answer then 1 else 0) ∧
    (s.update_score correct_answer).user_id = s.user_id ∧
    (s.update_score correct_answer).category_id = s.category_id := by
  cases correct_answer <;> simp [Score.update_score]

/-- Claim C4: on an invalid pair (missing question, missing answer, or an
answer that does not belong to the question), `submit_answer` returns 0 and
leaves the game and the database entirely unchanged. -/
theorem submit_answer_invalid_spec (g : Game) (db : DB) (question_id answer_id : Nat)
    (h : Question.find db question_id = none ∨ Answer.find db answer_id = none ∨
      ∀ question answer, Question.find db question_id = some question →
        Answer.find db answer_id = some answer →
        question.question_id ≠ answer.question_id) :
    g.submit_answer db question_id answer_id = (0, g, db) := by
  unfold Game.submit_answer
  rcases h with h | h | h
  · rw [h]
  · rw [h]
    cases Question.find db question_id <;> rfl
  · cases hq : Question.find db question_id with
    | none => rfl
    | some question =>
      cases ha : Answer.find db answer_id with
      | none => rfl
      | some answer =>
        have hne := h question answer hq ha
        simp only [beq_eq_false_iff_ne.mpr hne]
        rfl

/-- Witness for claim C4: submitting answer 8 for question 5 (which does
not exist in `dbFix`) changes nothing. -/
theorem submit_answer_invalid_witness :
    gFix.submit_answer dbFix 5 8 = (0, gFix, dbFix) :=
  submit_answer_invalid_spec gFix dbFix 5 8 (Or.inl (by decide))

/-- Claim C6: `is_end` holds exactly when `question_index` has reached the
number of questions, and a game that starts at index 0 has ended after one
`game_nextquestion` call per question. -/
theorem is_end_spec (g : Game) :
    (g.is_end = true ↔ g.question_index ≥ g.question_ids.length) ∧
    (g.question_index = 0 → (Game.nextN g g.question_ids.length).is_end = true) := by
  constructor
  · simp [Game.is_end]
  · intro h0
    simp [Game.is_end, nextN_question_index, nextN_question_ids, h0]

/-- Witness for claim C6: `gFix` starts at index 0 and has ended after one
call per question. -/
theorem is_end_witness : (Game.nextN gFix gFix.question_ids.length).is_end = true :=
  (is_end_spec gFix).2 rfl

lemma submit_answer_valid_eq (g : Game) (db : DB) (question_id answer_id : Nat)
    (question : Question) (answer : Answer)
    (hq : Question.find db question_id = some question)
    (ha : Answer.find db answer_id = some answer)
    (hm : question.question_id = answer.question_id) :
    g.submit_answer db question_id answer_id =
      ((if answer.correct then 1 else 0),
       (if answer.correct then { g with score := g.score + 1 } else g),
       { db with
         questionResults := db.questionResults ++
           [⟨g.id, question_id, g.user_id, answer_id, if answer.correct then 1 else 0⟩],
         questions := db.questions.map (fun q =>
           if q.question_id == question_id then
             { q with
               questions_answered := q.questions_answered + 1,
               questions_correct :=
                 q.questions_correct + (if answer.correct then 1 else 0) }
           else q) }) := by
  unfold Game.submit_answer
  rw [hq, ha]
  simp [hm]

lemma find?_map_bump (l : List Question) (question_id c : Nat) (question : Question)
    (h : l.find? (fun q => q.question_id == question_id) = some question) :
    (l.map (fun q =>
        if q.question_id == question_id then
          { q with
            questions_answered := q.questions_answered + 1,
            questions_correct := q.questions_correct + c }
        else q)).find? (fun q => q.question_id == question_id)
      = some { question with
          questions_answered := question.questions_answered + 1,
          questions_correct := question.questions_correct + c } := by
  rw [List.find?_map]
  have hcomp : ((fun q : Question => q.question_id == question_id) ∘ (fun q =>
      if q.question_id == question_id then
        { q with
          questions_answered := q.questions_answered + 1,
          questions_correct := q.questions_correct + c }
      else q)) = fun q : Question => q.question_id == question_id := by
    funext q
    by_cases hc : (q.question_id == question_id) = true <;> simp [Function.comp, hc]
  have hp := @List.find?_some _ _ _ _ h
  rw [hcomp, h]
  simp only [Option.map_some']
  rw [if_pos hp]

lemma submit_answer_valid_parts (g : Game) (db : DB) (question_id answer_id : Nat)
    (question : Question) (answer : Answer)
    (hq : Question.find db question_id = some question)
    (ha : Answer.find db answer_id = some answer)
    (hm : question.question_id = answer.question_id) :
    (g.submit_answer db question_id answer_id).1 = (if answer.correct then 1 else 0) ∧
    (g.submit_answer db question_id answer_id).2.2.questionResults
      = db.questionResults ++
        [⟨g.id, question_id, g.user_id, answer_id, if answer.correct then 1 else 0⟩] ∧
    (g.submit_answer db question_id answer_id).2.1.score
      = g.score + (if answer.correct then 1 else 0) ∧
    Question.find (g.submit_answer db question_id answer_id).2.2 question_id
      = some { question with
          questions_answered := question.questions_answered + 1,
          questions_correct :=
            question.questions_correct + (if answer.correct then 1 else 0) } := by
  rw [submit_answer_valid_eq g db question_id answer_id question answer hq ha hm]
  refine ⟨rfl, rfl, ?_, ?_⟩
  · cases answer.correct <;> simp
  · exact find?_map_bump db.questions question_id _ question hq

/-- Claim C1: on a valid pair (the question and the answer exist and the
answer belongs to the question), `submit_answer` appends exactly one
questionresults row carrying the 0/1 correctness flag, returns that flag,
adds the flag to the game score, and bumps the question row counters:
`questions_answered` by 1 and `questions_correct` by the flag. -/
theorem submit_answer_records (g : Game) (db : DB) (question_id answer_id : Nat)
    (question : Question) (answer : Answer)
    (hq : Question.find db question_id = some question)
    (ha : Answer.find db answer_id = some answer)
    (hm : question.question_id = answer.question_id) :
    (g.submit_answer db question_id answer_id).1 = (if answer.correct then 1 else 0) ∧
    (g.submit_answer db question_id answer_id).2.2.questionResults
      = db.questionResults ++
        [⟨g.id, question_id, g.user_id, answer_id, if answer.correct then 1 else 0⟩] ∧
    (g.submit_answer db question_id answer_id).2.1.score
      = g.score + (if answer.correct then 1 else 0) ∧
    Question.find (g.submit_answer db question_id answer_id).2.2 question_id
      = some { question with
          questions_answered := question.questions_answered + 1,
          questions_correct :=
            question.questions_correct + (if answer.correct then 1 else 0) } :=
  submit_answer_valid_parts g db question_id answer_id question answer hq ha hm

/-- Witness for claim C1: submitting the correct answer 7 for question 1
against `gFix` returns 1, appends one result row, bumps the score and the
question counters. -/
theorem submit_answer_records_witness :
    (gFix.submit_answer dbFix 1 7).1 = (if aFixCorrect.correct then 1 else 0) ∧
    (gFix.submit_answer dbFix 1 7).2.2.questionResults
      = dbFix.questionResults ++
        [⟨gFix.id, 1, gFix.user_id, 7, if aFixCorrect.correct then 1 else 0⟩] ∧
    (gFix.submit_answer dbFix 1 7).2.1.score
      = gFix.score + (if aFixCorrect.correct then 1 else 0) ∧
    Question.find (gFix.submit_answer dbFix 1 7).2.2 1
      = some { qFix with
          questions_answered := qFix.questions_answered + 1,
          questions_correct :=
            qFix.questions_correct + (if aFixCorrect.correct then 1 else 0) } :=
  submit_answer_records gFix dbFix 1 7 qFix aFixCorrect (by decide) (by decide) (by decide)

/-- Claim C10: `submit_answer` performs no membership check: even when the
question is not among the `question_ids` of the game, a valid pair is recorded
against the game and all counters are updated exactly as in the member
case. -/
theorem submit_answer_no_membership_check (g : Game) (db : DB)
    (question_id answer_id : Nat) (question : Question) (answer : Answer)
    (hq : Question.find db question_id = some question)
    (ha : Answer.find db answer_id = some answer)
    (hm : question.question_id = answer.question_id)
    (hnotmem : question_id ∉ g.question_ids) :
    (g.submit_answer db question_id answer_id).1 = (if answer.correct then 1 else 0) ∧
    (g.submit_answer db question_id answer_id).2.2.questionResults
      = db.questionResults ++
        [⟨g.id, question_id, g.user_id, answer_id, if answer.correct then 1 else 0⟩] ∧
    (g.submit_answer db question_id answer_id).2.1.score
      = g.score + (if answer.correct then 1 else 0) ∧
    Question.find (g.submit_answer db question_id answer_id).2.2 question_id
      = some { question with
          questions_answered := question.questions_answered + 1,
          questions_correct :=
            question.questions_correct + (if answer.correct then 1 else 0) } :=
  submit_answer_valid_parts g db question_id answer_id question answer hq ha hm

/-- Witness for claim C10: `gOther` plays only question 5, yet submitting
the valid pair (question 1, answer 7) is recorded against it. -/
theorem submit_answer_no_membership_witness :
    (gOther.submit_answer dbFix 1 7).1 = (if aFixCorrect.correct then 1 else 0) ∧
    (gOther.submit_answer dbFix 1 7).2.2.questionResults
      = dbFix.questionResults ++
        [⟨gOther.id, 1, gOther.user_id, 7, if aFixCorrect.correct then 1 else 0⟩] ∧
    (gOther.submit_answer dbFix 1 7).2.1.score
      = gOther.score + (if aFixCorrect.correct then 1 else 0) ∧
    Question.find (gOther.submit_answer dbFix 1 7).2.2 1
      = some { qFix with
          questions_answered := qFix.questions_answered + 1,
          questions_correct :=
            qFix.questions_correct + (if aFixCorrect.correct then 1 else 0) } :=
  submit_answer_no_membership_check gOther dbFix 1 7 qFix aFixCorrect
    (by decide) (by decide) (by decide) (by decide)

lemma create_ok_some (db : DB) (shuffle : List Nat → List Nat)
    (game_id user_id category_id : Nat) (difficulty curr_time : Int) (n : Nat) (g : Game)
    (h : Game.create db shuffle game_id user_id category_id difficulty curr_time n
      = .ok (some g)) :
    g = ⟨game_id, user_id,
         (shuffle (matching_question_ids db category_id difficulty)).take n,
         0, curr_time, 0, difficulty, category_id, 0⟩ ∧
    g.question_ids ≠ [] := by
  rw [Game.create] at h
  simp only [Game.init] at h
  split_ifs at h with h1 h2
  · simp at h
  · simp [Except.map] at h
  · simp only [Except.map] at h
    have hg := Option.some.inj (Except.ok.inj h)
    subst hg
    refine ⟨rfl, ?_⟩
    intro hempty
    apply h2
    have htake : List.take n (shuffle (matching_question_ids db category_id difficulty))
        = [] := hempty
    simp [htake]

lemma matching_nodup (db : DB) (category_id : Nat) (difficulty : Int)
    (hnodup : (db.questions.map (fun q => q.question_id)).Nodup) :
    (matching_question_ids db category_id difficulty).Nodup := by
  unfold matching_question_ids
  exact ((List.filter_sublist db.questions).map (fun q => q.question_id)).nodup hnodup

/-- Claim C2: `Game.create` selects the question list by a single
shuffle-and-slice of the ids matching the requested category and
difficulty; provided the shuffle permutes its input and question ids are
unique, the resulting list is a duplicate-free subset of the matching ids
of length `min n (number of matching ids)`. -/
theorem create_shuffle_slice (db : DB) (shuffle : List Nat → List Nat)
    (game_id user_id category_id : Nat) (difficulty curr_time : Int) (n : Nat) (g : Game)
    (hperm : List.Perm (shuffle (matching_question_ids db category_id difficulty))
      (matching_question_ids db category_id difficulty))
    (hnodup : (db.questions.map (fun q => q.question_id)).Nodup)
    (hcreate : Game.create db shuffle game_id user_id category_id difficulty curr_time n
      = .ok (some g)) :
    g.question_ids = (shuffle (matching_question_ids db category_id difficulty)).take n ∧
    g.question_ids.Nodup ∧
    (∀ qid ∈ g.question_ids, qid ∈ matching_question_ids db category_id difficulty) ∧
    g.question_ids.length
      = min n (matching_question_ids db category_id difficulty).length := by
  obtain ⟨hg, -⟩ := create_ok_some db shuffle game_id user_id category_id difficulty
    curr_time n g hcreate
  have hids : g.question_ids
      = (shuffle (matching_question_ids db category_id difficulty)).take n := by
    rw [hg]
  have hshufflenodup : (shuffle (matching_question_ids db category_id difficulty)).Nodup :=
    hperm.nodup_iff.mpr (matching_nodup db category_id difficulty hnodup)
  refine ⟨hids, ?_, ?_, ?_⟩
  · rw [hids]
    exact List.Nodup.sublist (List.take_sublist n _) hshufflenodup
  · intro qid hqid
    rw [hids] at hqid
    exact hperm.mem_iff.mp (List.take_subset n _ hqid)
  · rw [hids, List.length_take, hperm.length_eq]

/-- Witness for claim C2: creating a game over `dbFix` with the identity
shuffle yields `gCreated`, whose question list is duplicate-free and of
length `min 5 1`. -/
theorem create_shuffle_slice_witness :
    gCreated.question_ids.Nodup ∧
    gCreated.question_ids.length = min 5 (matching_question_ids dbFix 2 1).length := by
  have h := create_shuffle_slice dbFix (fun l => l) 20 3 2 1 0 5 gCreated
    (List.Perm.refl _) (by decide) (by rfl)
  exact ⟨h.2.1, h.2.2.2⟩

/-- Counterexample for claim C3: on `dbFix` only one question matches
category 2 at difficulty 1, yet `Game.create` with the default `n = 5`
succeeds and returns a game with 1 question, not 5. -/
theorem create_fixed_size_counterexample :
    Game.create_default dbFix (fun l => l) 20 3 2 1 0 = .ok (some gCreated) ∧
    gCreated.question_ids.length = 1 ∧
    gCreated.question_ids.length ≠ 5 :=
  ⟨rfl, rfl, by decide⟩

/-- Claim C3 as amended: the question list of a game produced by
`Game.create` with the default `n = 5` has length `min 5 (number of
matching question ids)`; it is 5 exactly when at least 5 questions match. -/
theorem create_default_length_min (db : DB) (shuffle : List Nat → List Nat)
    (game_id user_id category_id : Nat) (difficulty curr_time : Int) (g : Game)
    (hperm : List.Perm (shuffle (matching_question_ids db category_id difficulty))
      (matching_question_ids db category_id difficulty))
    (hcreate : Game.create_default db shuffle game_id user_id category_id difficulty curr_time
      = .ok (some g)) :
    g.question_ids.length
      = min 5 (matching_question_ids db category_id difficulty).length ∧
    (5 ≤ (matching_question_ids db category_id difficulty).length →
      g.question_ids.length = 5) := by
  obtain ⟨hg, -⟩ := create_ok_some db shuffle game_id user_id category_id difficulty
    curr_time 5 g hcreate
  have hlen : g.question_ids.length
      = min 5 (matching_question_ids db category_id difficulty).length := by
    rw [hg]
    show ((shuffle (matching_question_ids db category_id difficulty)).take 5).length = _
    rw [List.length_take, hperm.length_eq]
  exact ⟨hlen, fun h5 => by rw [hlen]; omega⟩

/-- Witness for the amended claim C3: `gCreated` has `min 5 1 = 1`
questions. -/
theorem create_default_length_min_witness :
    gCreated.question_ids.length = min 5 (matching_question_ids dbFix 2 1).length := by
  have h := create_default_length_min dbFix (fun l => l) 20 3 2 1 0 gCreated
    (List.Perm.refl _) (by rfl)
  exact h.1

lemma find?_of_mem_nodup (l : List Question) (q : Question)
    (hnodup : (l.map (fun x => x.question_id)).Nodup) (hmem : q ∈ l) :
    l.find? (fun x => x.question_id == q.question_id) = some q := by
  induction l with
  | nil => cases hmem
  | cons a as ih =>
    rw [List.find?_cons]
    rcases List.mem_cons.mp hmem with heq | hmem'
    · subst heq
      simp
    · rw [List.map_cons] at hnodup
      have hnc := List.nodup_cons.mp hnodup
      have hane : a.question_id ≠ q.question_id := by
        intro hcontra
        exact hnc.1 (hcontra ▸ List.mem_map_of_mem (fun x => x.question_id) hmem')
      simp only [beq_eq_false_iff_ne.mpr hane]
      exact ih hnc.2 hmem'

lemma mem_matching (db : DB) (category_id : Nat) (difficulty : Int) (qid : Nat)
    (h : qid ∈ matching_question_ids db category_id difficulty) :
    ∃ q ∈ db.questions,
      q.question_id = qid ∧ q.category = category_id ∧ q.difficulty = difficulty := by
  unfold matching_question_ids at h
  obtain ⟨q, hq, hid⟩ := List.mem_map.mp h
  obtain ⟨hqmem, hp⟩ := List.mem_filter.mp hq
  simp only [Bool.and_eq_true, beq_iff_eq] at hp
  exact ⟨q, hqmem, hid, hp.1, hp.2⟩

lemma submit_answer_question_ids_frame (g : Game) (db : DB) (question_id answer_id : Nat) :
    ((g.submit_answer db question_id answer_id).2.1).question_ids = g.question_ids := by
  unfold Game.submit_answer
  cases Question.find db question_id with
  | none => rfl
  | some question =>
    cases Answer.find db answer_id with
    | none => rfl
    | some answer =>
      by_cases hm : (question.question_id == answer.question_id) = true
      · simp only [hm]
        cases answer.correct <;> rfl
      · have hne : question.question_id ≠ answer.question_id := by simpa using hm
        simp only [beq_eq_false_iff_ne.mpr hne]
        rfl

/-- Claim C7: a game made by `Game.create` holds only questions whose
category and difficulty equal the `category_id` and
`difficulty` fields of the game itself, and neither `submit_answer` nor `game_nextquestion`
ever changes the `question_ids` list. -/
theorem game_fixed_pair (db : DB) (shuffle : List Nat → List Nat)
    (game_id user_id category_id : Nat) (difficulty curr_time : Int) (n : Nat) (g : Game)
    (hnodup : (db.questions.map (fun q => q.question_id)).Nodup)
    (hperm : List.Perm (shuffle (matching_question_ids db category_id difficulty))
      (matching_question_ids db category_id difficulty))
    (hcreate : Game.create db shuffle game_id user_id category_id difficulty curr_time n
      = .ok (some g)) :
    (∀ qid ∈ g.question_ids, ∃ q : Question, Question.find db qid = some q ∧
      q.category = g.category_id ∧ q.difficulty = g.difficulty) ∧
    (∀ (db' : DB) (question_id answer_id : Nat),
      ((g.submit_answer db' question_id answer_id).2.1).question_ids = g.question_ids) ∧
    ((g.game_nextquestion).2.question_ids = g.question_ids) := by
  obtain ⟨hg, -⟩ := create_ok_some db shuffle game_id user_id category_id difficulty
    curr_time n g hcreate
  have hcat : g.category_id = category_id := by rw [hg]
  have hdiff : g.difficulty = difficulty := by rw [hg]
  refine ⟨?_, fun db' qi ai => submit_answer_question_ids_frame g db' qi ai, rfl⟩
  intro qid hqid
  have hqid' : qid ∈ matching_question_ids db category_id difficulty := by
    have : qid ∈ (shuffle (matching_question_ids db category_id difficulty)).take n := by
      rw [hg] at hqid
      exact hqid
    exact hperm.mem_iff.mp (List.take_subset n _ this)
  obtain ⟨q, hqmem, hid, hqc, hqd⟩ := mem_matching db category_id difficulty qid hqid'
  refine ⟨q, ?_, by rw [hcat, hqc], by rw [hdiff, hqd]⟩
  unfold Question.find
  rw [← hid]
  exact find?_of_mem_nodup db.questions q hnodup hqmem

/-- Witness for claim C7: in `gCreated` every question (namely `qFix`)
has the category 2 and difficulty 1 of the game, and neither operation
changes the question list. -/
theorem game_fixed_pair_witness :
    (Question.find dbFix 1 = some qFix ∧
      qFix.category = gCreated.category_id ∧ qFix.difficulty = gCreated.difficulty) ∧
    ((gCreated.submit_answer dbFix 1 7).2.1).question_ids = gCreated.question_ids ∧
    (gCreated.game_nextquestion).2.question_ids = gCreated.question_ids := by
  have h := game_fixed_pair dbFix (fun l => l) 20 3 2 1 0 5 gCreated
    (by decide) (List.Perm.refl _) (by rfl)
  obtain ⟨q, hfind, hc, hd⟩ := h.1 1 (by decide)
  have hq : Question.find dbFix 1 = some qFix := by decide
  rw [hq] at hfind
  have hq2 := Option.some.inj hfind
  subst hq2
  exact ⟨⟨hq, hc, hd⟩, h.2.1 dbFix 1 7, h.2.2⟩

/-- Claim C9: no game has an empty question list: `Game.create` returns
`None` when no question matches, the constructor rejects an empty
`question_ids` value with `ValueError`, and every game returned by
`Game.create` has at least one question. -/
theorem game_questions_nonempty (db : DB) (shuffle : List Nat → List Nat)
    (game_id user_id category_id : Nat) (difficulty curr_time : Int) (n : Nat) :
    (matching_question_ids db category_id difficulty = [] →
      Game.create db shuffle game_id user_id category_id difficulty curr_time n
        = .ok none) ∧
    (∀ (question_ids : List Nat) (question_index : Nat)
        (time_started time_completed d : Int) (c s : Nat),
      question_ids = [] →
      Game.init game_id user_id question_ids question_index time_started time_completed d c s
        = .error "a game must have questions") ∧
    (∀ g : Game,
      Game.create db shuffle game_id user_id category_id difficulty curr_time n
        = .ok (some g) →
      g.question_ids ≠ []) := by
  refine ⟨?_, ?_, ?_⟩
  · intro hempty
    rw [Game.create]
    simp [hempty]
  · intro question_ids question_index ts tc d c s hempty
    subst hempty
    rfl
  · intro g hcreate
    exact (create_ok_some db shuffle game_id user_id category_id difficulty
      curr_time n g hcreate).2

/-- Witness for claim C9: `Game.create` on the empty database returns
`None`; the constructor rejects `[]`; `gCreated` has a question. -/
theorem game_questions_nonempty_witness :
    Game.create dbEmpty (fun l => l) 1 1 2 1 0 5 = .ok none ∧
    Game.init 1 1 [] 0 0 0 1 2 0 = .error "a game must have questions" ∧
    gCreated.question_ids ≠ [] := by
  refine ⟨?_, ?_, ?_⟩
  · exact (game_questions_nonempty dbEmpty (fun l => l) 1 1 2 1 0 5).1 rfl
  · exact (game_questions_nonempty dbFix (fun l => l) 1 1 2 1 0 5).2.1 [] 0 0 0 1 2 0 rfl
  · exact (game_questions_nonempty dbFix (fun l => l) 20 3 2 1 0 5).2.2 gCreated (by rfl)

end Trivia
